import Mathlib

/-!
Shallow embedding of the servo embedding layer (ports/libservo_gui and
components/script/fetch.rs): the event translator of
glutin_app/window.rs, the browser/tab coordinator of browser.rs, and the
fetch-cancellation guard of fetch.rs.  Rust f32 quantities (scroll
deltas, hidpi factors, zoom factors) are modelled as rationals; device
coordinates (i32) as integers.  The square-root comparison in
Window::handle_mouse (sqrt(dist2) < max) is encoded as the equivalent
squared comparison dist2 < max^2, valid for a positive threshold.
-/

namespace Servo

/-- Key modifier bit-set (msg::constellation_msg::KeyModifiers):
CONTROL, SHIFT, ALT, SUPER flags. -/
structure KeyModifiers where
  ctrl : Bool
  shift : Bool
  alt : Bool
  sup : Bool
deriving DecidableEq, Repr

/-- KeyModifiers::NONE, the empty bit-set. -/
def KeyModifiers.NONE : KeyModifiers := ⟨false, false, false, false⟩

/-- The bit-operation mods & !KeyModifiers::SHIFT used in handle_key_from_servo. -/
def KeyModifiers.clearShift (m : KeyModifiers) : KeyModifiers := { m with shift := false }

/-- Modelled from the spec: keyutils::CMD_OR_CONTROL, the platform's
standard accelerator modifier (keyutils.rs is not among the provided
sources).  CONTROL on non-mac platforms. -/
def CMD_OR_CONTROL : KeyModifiers := ⟨true, false, false, false⟩

/-- winit::ModifiersState carried on keyboard input. -/
structure ModifiersState where
  ctrl : Bool
  shift : Bool
  alt : Bool
  logo : Bool
deriving DecidableEq, Repr

/-- msg::constellation_msg::KeyState. -/
inductive KeyState where
  | pressed
  | released
deriving DecidableEq, Repr

/-- winit::ElementState. -/
inductive ElementState where
  | pressed
  | released
deriving DecidableEq, Repr

/-- msg::constellation_msg::Key, restricted to the constructors the
embedding layer inspects, with a numeric catch-all for every other key. -/
inductive Key where
  | pageUp
  | pageDown
  | home
  | endKey
  | up
  | down
  | left
  | right
  | other (code : Nat)
deriving DecidableEq, Repr

/-- script_traits::TouchEventType. -/
inductive TouchEventType where
  | down
  | move
  | up
  | cancel
deriving DecidableEq, Repr

/-- webrender_api::ScrollLocation (Start/End spelled start/scrollEnd). -/
inductive ScrollLocation where
  | delta (v : ℚ × ℚ)
  | start
  | scrollEnd
deriving DecidableEq, Repr

/-- script_traits::MouseButton, the button identifier carried on emitted
mouse events. -/
inductive ServoMouseButton where
  | left
  | middle
  | right
deriving DecidableEq, Repr

/-- winit::MouseButton, the physical button reported by the platform. -/
inductive MouseButtonW where
  | left
  | right
  | middle
  | other (n : Nat)
deriving DecidableEq, Repr

/-- compositing::windowing::MouseWindowEvent. -/
inductive MouseWindowEvent where
  | click (b : ServoMouseButton) (p : ℚ × ℚ)
  | mouseDown (b : ServoMouseButton) (p : ℚ × ℚ)
  | mouseUp (b : ServoMouseButton) (p : ℚ × ℚ)
deriving DecidableEq, Repr

/-- The button identifier carried by a MouseWindowEvent. -/
def MouseWindowEvent.button : MouseWindowEvent → ServoMouseButton
  | .click b _ => b
  | .mouseDown b _ => b
  | .mouseUp b _ => b

/-- compositing::windowing::WindowEvent, restricted to the variants this
embedding layer produces. -/
inductive WindowEvent where
  | keyEvent (ch : Option Char) (key : Key) (state : KeyState) (mods : KeyModifiers)
  | mouseWindowEventClass (e : MouseWindowEvent)
  | mouseWindowMoveEventClass (p : ℚ × ℚ)
  | scroll (loc : ScrollLocation) (point : ℤ × ℤ) (phase : TouchEventType)
  | touch (phase : TouchEventType) (id : ℤ) (point : ℚ × ℚ)
  | zoom (factor : ℚ)
  | pinchZoom (factor : ℚ)
  | resetZoom
  | selectBrowser (id : Nat)
  | sendError (id : Option Nat) (reason : String)
  | refresh
  | resize
  | idle
  | quit
deriving DecidableEq, Repr

/-- glutin_app::window::LINE_HEIGHT (38.0 device pixels). -/
def LINE_HEIGHT : ℚ := 38

/-! ### FetchCanceller (components/script/fetch.rs)

The ipc one-shot channels are modelled by numeric channel identifiers:
a world holds the next fresh identifier and the list of identifiers on
which a cancellation send was attempted (`let _ = chan.send(())`). -/

/-- RAII fetch canceller: holds the sending half of the armed
cancellation channel, if any (fetch.rs, struct FetchCanceller). -/
structure FetchCanceller where
  cancel_chan : Option Nat
deriving DecidableEq, Repr

/-- Bookkeeping for the ipc channels a FetchCanceller interacts with:
a fresh-identifier counter and the sends performed so far, in order. -/
structure ChannelWorld where
  next_id : Nat
  sent : List Nat
deriving DecidableEq, Repr

/-- FetchCanceller::new(): no armed channel. -/
def FetchCanceller.new : FetchCanceller := ⟨none⟩

/-- FetchCanceller::cancel(): if armed, send the cancellation signal on
the stored channel (errors discarded) and disarm; otherwise a no-op. -/
def FetchCanceller.cancel : FetchCanceller → ChannelWorld → FetchCanceller × ChannelWorld
  | ⟨some ch⟩, w => (⟨none⟩, { w with sent := w.sent ++ [ch] })
  | ⟨none⟩, w => (⟨none⟩, w)

/-- FetchCanceller::initialize(): cancel any previous fetch, then create
a fresh channel, store the sending half and return the receiving half
(as its identifier). -/
def FetchCanceller.setup (f : FetchCanceller) (w : ChannelWorld) :
    FetchCanceller × ChannelWorld × Nat :=
  let fw := FetchCanceller.cancel f w
  let ch := fw.2.next_id
  (⟨some ch⟩, { fw.2 with next_id := fw.2.next_id + 1 }, ch)

/-- FetchCanceller::ignore(): drop the stored sender without signalling. -/
def FetchCanceller.ignore (_f : FetchCanceller) : FetchCanceller := ⟨none⟩

/-- impl Drop for FetchCanceller: drop behaves as cancel(). -/
def FetchCanceller.dropGuard (f : FetchCanceller) (w : ChannelWorld) :
    FetchCanceller × ChannelWorld :=
  FetchCanceller.cancel f w

/-- Number of cancellation signals sent on channel ch so far. -/
def ChannelWorld.sentCount (w : ChannelWorld) (ch : Nat) : Nat :=
  w.sent.count ch

/-! ### Event translator (ports/libservo_gui/src/glutin_app/window.rs)

The per-window mutable state of struct Window, restricted to the fields
the input-translation entry points read or write.  The key-mapping
helpers of glutin_app::keyutils (a module of this crate whose file is
not among the provided sources) appear as an explicit record of
functions. -/

/-- The keyutils helpers used by Window: winit keycodes are opaque
naturals.  winit_key_to_script_key returns Result in the source; only
its Ok branch is consumed, so it is an Option here. -/
structure Keyutils where
  char_to_script_key : Char → Option Key
  winit_key_to_script_key : Nat → Option Key
  is_printable : Nat → Bool

/-- Mutable per-window state of struct Window (window.rs): the Cell
fields touched by input translation, with the queued WindowEvents. -/
structure WindowModel where
  inner_size : ℕ × ℕ
  mouse_down_button : Option MouseButtonW
  mouse_down_point : ℤ × ℤ
  event_queue : List WindowEvent
  mouse_pos : ℤ × ℤ
  key_modifiers : KeyModifiers
  last_pressed_key : Option Key
  fullscreen : Bool
  suspended : Bool
deriving DecidableEq, Repr

/-- Window::toggle_keyboard_modifiers: each of the four modifier bits is
inserted or removed according to the winit ModifiersState. -/
def toggle_keyboard_modifiers (w : WindowModel) (mods : ModifiersState) : WindowModel :=
  { w with key_modifiers := ⟨mods.ctrl, mods.shift, mods.alt, mods.logo⟩ }

/-- Window::handle_received_character: pair the platform's produced
character with the deferred printable key.  If no key is deferred the
character is dropped; otherwise the deferred slot is cleared and one
key-press event is emitted, carrying (char_to_script_key ch, ch) when
the character resolves to a script key and (deferred key, no char)
otherwise. -/
def handle_received_character (ku : Keyutils) (w : WindowModel) (ch : Char) : WindowModel :=
  match w.last_pressed_key with
  | none => w
  | some last_key =>
    let w := { w with last_pressed_key := none }
    let kc : Key × Option Char :=
      match ku.char_to_script_key ch with
      | some key => (key, some ch)
      | none => (last_key, none)
    { w with event_queue :=
        w.event_queue ++ [.keyEvent kc.2 kc.1 .pressed w.key_modifiers] }

/-- The ElementState to KeyState conversion inside
Window::handle_keyboard_input. -/
def keyStateOfElement : ElementState → KeyState
  | .pressed => .pressed
  | .released => .released

/-- Window::handle_keyboard_input: update the modifier bit-set, then
either defer a printable pressed key (expecting a ReceivedCharacter
next) or emit the key event immediately with no character. -/
def handle_keyboard_input (ku : Keyutils) (w : WindowModel)
    (element_state : ElementState) (code : Nat) (mods : ModifiersState) : WindowModel :=
  let w := toggle_keyboard_modifiers w mods
  match ku.winit_key_to_script_key code with
  | none => w
  | some key =>
    let state : KeyState := keyStateOfElement element_state
    if element_state = .pressed ∧ ku.is_printable code then
      { w with last_pressed_key := some key }
    else
      { w with last_pressed_key := none,
               event_queue :=
                 w.event_queue ++ [.keyEvent none key state w.key_modifiers] }

/-- Cast an integer device point to the ℚ point carried on emitted
events (coords.to_f32() in the source). -/
def qpoint (p : ℤ × ℤ) : ℚ × ℚ := ((p.1 : ℚ), (p.2 : ℚ))

/-- Window::handle_mouse: on press record anchor point and button and
emit mouse-down; on release emit mouse-up, plus a click when the same
button was recorded and the anchor-to-release distance is under
10 * hidpi.  The source compares sqrt(dx^2+dy^2) < 10*hidpi on f32;
here the equivalent squared comparison dx^2+dy^2 < (10*hidpi)^2 is
used (equivalent whenever the threshold is nonnegative).  Every emitted
event carries MouseButton::Left. -/
def handle_mouse (hidpi : ℚ) (w : WindowModel) (button : MouseButtonW)
    (action : ElementState) (coords : ℤ × ℤ) : WindowModel :=
  match action with
  | .pressed =>
    let w := { w with mouse_down_point := coords, mouse_down_button := some button }
    { w with event_queue :=
        w.event_queue ++ [.mouseWindowEventClass (.mouseDown .left (qpoint coords))] }
  | .released =>
    let upEvent : MouseWindowEvent := .mouseUp .left (qpoint coords)
    match w.mouse_down_button with
    | none =>
      { w with event_queue := w.event_queue ++ [.mouseWindowEventClass upEvent] }
    | some but =>
      if button = but then
        let dx := w.mouse_down_point.1 - coords.1
        let dy := w.mouse_down_point.2 - coords.2
        let dist2 : ℤ := dx * dx + dy * dy
        if (dist2 : ℚ) < (10 * hidpi) ^ 2 then
          { w with event_queue :=
              w.event_queue ++ [.mouseWindowEventClass upEvent,
                                .mouseWindowEventClass (.click .left (qpoint coords))] }
        else
          { w with event_queue := w.event_queue ++ [.mouseWindowEventClass upEvent] }
      else
        { w with event_queue := w.event_queue ++ [.mouseWindowEventClass upEvent] }

/-- The MouseInput arm of Window::winit_event_to_servo_event: only the
left and right physical buttons reach handle_mouse, at the last cursor
position. -/
def handle_mouse_input (hidpi : ℚ) (w : WindowModel)
    (state : ElementState) (button : MouseButtonW) : WindowModel :=
  if button = .left ∨ button = .right then
    handle_mouse hidpi w button state w.mouse_pos
  else
    w

/-- winit::MouseScrollDelta: line- or (logical) pixel-granularity wheel
delta. -/
inductive MouseScrollDelta where
  | lineDelta (dx dy : ℚ)
  | pixelDelta (x y : ℚ)
deriving DecidableEq, Repr

/-- The delta resolution of the MouseWheel arm: line deltas scale dy by
LINE_HEIGHT; pixel deltas are converted to physical pixels by the hidpi
factor. -/
def resolve_wheel_delta (hidpi : ℚ) : MouseScrollDelta → ℚ × ℚ
  | .lineDelta dx dy => (dx, dy * LINE_HEIGHT)
  | .pixelDelta x y => (x * hidpi, y * hidpi)

/-- Scroll-axis snapping of the MouseWheel arm: when |dy| >= |dx| zero
dx, otherwise zero dy. -/
def snap_scroll (dx dy : ℚ) : ℚ × ℚ :=
  if |dy| ≥ |dx| then (0, dy) else (dx, 0)

/-- The MouseWheel arm of Window::winit_event_to_servo_event: resolve
the delta, snap it to the dominant axis, and queue a scroll event at
the current mouse position. -/
def handle_mouse_wheel (hidpi : ℚ) (w : WindowModel)
    (delta : MouseScrollDelta) (phase : TouchEventType) : WindowModel :=
  let d := resolve_wheel_delta hidpi delta
  let s := snap_scroll d.1 d.2
  { w with event_queue :=
      w.event_queue ++ [.scroll (.delta s) w.mouse_pos phase] }

/-! ### Browser coordinator (ports/libservo_gui/src/browser.rs)

struct Browser, its handle_servo_events notification loop and the
handle_key_from_servo remap table.  Calls on the owned Window
(set_title, set_position, ...) and sends on carried ipc reply channels
become entries of an output list; each reply-channel send attempt is
one reply output.  Browser ids (TopLevelBrowsingContextId) are
naturals, urls are strings. -/

/-- browser.rs, enum LoadingState. -/
inductive LoadingState where
  | connecting
  | loading
  | loaded
deriving DecidableEq, Repr

/-- embedder_traits::EmbedderMsg, restricted to the payloads browser.rs
inspects: reply channels are left implicit (replies become outputs),
urls and devices are strings, the files payload is its filter patterns
and multiple-files flag. -/
inductive EmbedderMsg where
  | status (s : Option String)
  | changePageTitle (t : Option String)
  | moveTo (p : ℤ × ℤ)
  | resizeTo (sz : ℕ × ℕ)
  | alert (message : String)
  | allowUnload
  | allowNavigation (url : String)
  | allowOpeningBrowser
  | browserCreated (id : Nat)
  | keyEvent (ch : Option Char) (key : Key) (state : KeyState) (mods : KeyModifiers)
  | setCursor (cursor : Nat)
  | newFavicon (url : String)
  | headParsed
  | historyChanged (urls : List String) (current : Nat)
  | setFullscreenState (state : Bool)
  | loadStart
  | loadComplete
  | closeBrowser
  | shutdown
  | panicMsg (reason : String)
  | getSelectedBluetoothDevice (devices : List String)
  | selectFiles (patterns : List String) (multiple_files : Bool)
  | showIME (kind : Nat)
  | hideIME
deriving DecidableEq, Repr

/-- Effects of one notification: window-manager calls and reply-channel
send attempts, in program order. -/
inductive Output where
  | setTitle (title : String)
  | setPosition (p : ℤ × ℤ)
  | setInnerSize (sz : ℕ × ℕ)
  | setCursorAct (cursor : Nat)
  | setFullscreenAct (state : Bool)
  | showAlert (message : String)
  | replyUnit
  | replyBool (b : Bool)
  | replyFiles (files : Option (List String))
deriving DecidableEq, Repr

/-- External inputs of the coordinator: the headless option
(opts::get().headless), the file-dialog outcome, whether a
reply-channel send fails (the peer is gone), and the window's current
page height in device pixels (Window::page_height). -/
structure Env where
  headless : Bool
  fileChoice : Option (List String)
  sendFails : Bool
  pageHeight : ℚ
deriving DecidableEq, Repr

/-- browser.rs, struct Browser: the coordinator state. -/
structure BrowserState where
  browser_id : Option Nat
  browsers : List Nat
  title : Option String
  status : Option String
  favicon : Option String
  loading_state : Option LoadingState
  event_queue : List WindowEvent
  shutdown_requested : Bool
deriving DecidableEq, Repr

/-- Browser::new(window). -/
def BrowserState.new : BrowserState :=
  ⟨none, [], none, none, none, none, [], false⟩

/-- Push one WindowEvent onto the coordinator's event queue. -/
def BrowserState.push (s : BrowserState) (e : WindowEvent) : BrowserState :=
  { s with event_queue := s.event_queue ++ [e] }

/-- Browser::handle_key_from_servo: the key remap table.  Key-press
events return immediately; on release the match arms are tried in
source order (zoom accelerators on produced characters, then the
modifier-free scroll keys). -/
def handle_key_from_servo (env : Env) (s : BrowserState)
    (ch : Option Char) (key : Key) (state : KeyState) (mods : KeyModifiers) : BrowserState :=
  if state = KeyState.pressed then s
  else if ch = some '+' then
    if mods.clearShift = CMD_OR_CONTROL then
      s.push (.zoom (11 / 10))
    else if mods.clearShift = { CMD_OR_CONTROL with alt := true } then
      s.push (.pinchZoom (11 / 10))
    else s
  else if mods = CMD_OR_CONTROL ∧ ch = some '-' then
    s.push (.zoom (10 / 11))
  else if ch = some '-' ∧ mods = { CMD_OR_CONTROL with alt := true } then
    s.push (.pinchZoom (10 / 11))
  else if mods = CMD_OR_CONTROL ∧ ch = some '0' then
    s.push .resetZoom
  else if mods = KeyModifiers.NONE ∧ ch = none then
    match key with
    | .pageDown => s.push (.scroll (.delta (0, -env.pageHeight + 2 * LINE_HEIGHT)) (0, 0) .move)
    | .pageUp => s.push (.scroll (.delta (0, env.pageHeight - 2 * LINE_HEIGHT)) (0, 0) .move)
    | .home => s.push (.scroll .start (0, 0) .move)
    | .endKey => s.push (.scroll .scrollEnd (0, 0) .move)
    | .up => s.push (.scroll (.delta (0, 3 * LINE_HEIGHT)) (0, 0) .move)
    | .down => s.push (.scroll (.delta (0, -(3 * LINE_HEIGHT))) (0, 0) .move)
    | .left => s.push (.scroll (.delta (LINE_HEIGHT, 0)) (0, 0) .move)
    | .right => s.push (.scroll (.delta (-LINE_HEIGHT, 0)) (0, 0) .move)
    | .other _ => s
  else s

/-- One iteration of the Browser::handle_servo_events loop: process a
single (browser id, message) pair, returning the new state and the
outputs (window calls and reply attempts) in order. -/
def handleServoEvent (env : Env) (s : BrowserState) (browser_id : Option Nat)
    (msg : EmbedderMsg) : BrowserState × List Output :=
  match msg with
  | .status st => ({ s with status := st }, [])
  | .changePageTitle t =>
    let s := { s with title := t }
    let titleStr : String :=
      match s.title with
      | some ti => if 0 < ti.length then ti else "Untitled"
      | none => "Untitled"
    (s, [.setTitle (titleStr ++ " - Servo")])
  | .moveTo p => (s, [.setPosition p])
  | .resizeTo sz => (s, [.setInnerSize sz])
  | .alert message =>
    -- The dialog thread is spawned and joined; then the reply channel
    -- is signalled, and a failed send queues a SendError event.
    let s :=
      if env.sendFails then
        s.push (.sendError browser_id "Failed to send Alert response")
      else s
    (s, [.showAlert message, .replyUnit])
  | .allowUnload => (s, [.replyBool false])
  | .allowNavigation _url => (s, [.replyBool false])
  | .allowOpeningBrowser => (s, [.replyBool false])
  | .browserCreated new_browser_id =>
    let s := { s with browsers := s.browsers ++ [new_browser_id] }
    let s :=
      if s.browser_id = none then { s with browser_id := some new_browser_id } else s
    (s.push (.selectBrowser new_browser_id), [])
  | .keyEvent ch key state mods =>
    (handle_key_from_servo env s ch key state mods, [])
  | .setCursor cursor => (s, [.setCursorAct cursor])
  | .newFavicon url => ({ s with favicon := some url }, [])
  | .headParsed => ({ s with loading_state := some .loading }, [])
  | .historyChanged _ _ => (s, [])
  | .setFullscreenState state => (s, [.setFullscreenAct state])
  | .loadStart => ({ s with loading_state := some .connecting }, [])
  | .loadComplete => ({ s with loading_state := some .loaded }, [])
  | .closeBrowser =>
    let s := { s with browsers := s.browsers.dropLast }
    match s.browsers.getLast? with
    | some prev_browser_id =>
      (({ s with browser_id := some prev_browser_id }).push
         (.selectBrowser prev_browser_id), [])
    | none => (s.push .quit, [])
  | .shutdown => ({ s with shutdown_requested := true }, [])
  | .panicMsg _ => (s, [])
  | .getSelectedBluetoothDevice _devices => (s, [])
  | .selectFiles _patterns _multiple_files =>
    let reply : Option (List String) :=
      if env.headless then none else env.fileChoice
    let s :=
      if env.sendFails then
        s.push (.sendError none "Failed to send SelectFiles response")
      else s
    (s, [.replyFiles reply])
  | .showIME _ => (s, [])
  | .hideIME => (s, [])

/-- State part of one handle_servo_events iteration. -/
def stepBrowser (env : Env) (s : BrowserState) (pm : Option Nat × EmbedderMsg) : BrowserState :=
  (handleServoEvent env s pm.1 pm.2).1

/-- Browser::handle_servo_events over a whole notification batch
(state part). -/
def runServoEvents (env : Env) (s : BrowserState)
    (msgs : List (Option Nat × EmbedderMsg)) : BrowserState :=
  msgs.foldl (stepBrowser env) s

/-- Whether a message is a browser-created notification. -/
def isBrowserCreated : EmbedderMsg → Bool
  | .browserCreated _ => true
  | _ => false

/-- Number of browser-created notifications in a batch. -/
def createdCount (msgs : List (Option Nat × EmbedderMsg)) : Nat :=
  (msgs.filter (fun pm => isBrowserCreated pm.2)).length

/-- Number of reply-channel send attempts among the outputs. -/
def replyCount (outs : List Output) : Nat :=
  (outs.filter (fun o =>
    match o with
    | .replyUnit => true
    | .replyBool _ => true
    | .replyFiles _ => true
    | _ => false)).length

/-- Exactly one of the two components of a 2-D delta is zero. -/
def ExactlyOneZero (p : ℚ × ℚ) : Prop :=
  (p.1 = 0 ∧ p.2 ≠ 0) ∨ (p.1 ≠ 0 ∧ p.2 = 0)

/-- A concrete coordinator environment for concrete evaluations. -/
def env0 : Env := ⟨true, none, false, 0⟩

/-- A concrete fresh window state for concrete evaluations. -/
def window0 : WindowModel :=
  ⟨(800, 600), none, (0, 0), [], (0, 0), KeyModifiers.NONE, none, false, false⟩

/-- A concrete key table for concrete evaluations: every character maps
to script key 97, every keycode maps to itself, and keycode 65 is the
only printable key. -/
def ku0 : Keyutils :=
  ⟨fun _ => some (.other 97), fun n => some (.other n), fun n => n == 65⟩

/-- Reachable browser-session shapes when at most one browser is ever
created: either no active id and an empty stack, or an active id a with
the stack empty or exactly [a]. -/
def SessionInv (s : BrowserState) : Prop :=
  (s.browser_id = none ∧ s.browsers = []) ∨
  (∃ a, s.browser_id = some a ∧ (s.browsers = [] ∨ s.browsers = [a]))

/-! ### Theorems -/

/-- C2: the CancelGuard discipline of FetchCanceller.  Calling
initialize twice from a fresh guard sends exactly one cancellation
signal, on the first channel, and afterwards only the second (fresh)
channel is armed; ignore followed by drop sends nothing; dropping an
initialized guard sends exactly one signal on its channel; and
re-initializing any armed guard first cancels the old channel.  At most
one channel is armed at any time since the guard stores at most one
sender. -/
theorem fetch_canceller_spec (w : ChannelWorld) (f : FetchCanceller) (ch : Nat) :
    (let a := FetchCanceller.setup FetchCanceller.new w
     let b := FetchCanceller.setup a.1 a.2.1
     b.2.1.sent = w.sent ++ [a.2.2] ∧
       b.1.cancel_chan = some b.2.2 ∧ a.2.2 ≠ b.2.2) ∧
    (let a := FetchCanceller.setup FetchCanceller.new w
     (FetchCanceller.dropGuard (FetchCanceller.ignore a.1) a.2.1).2.sent = w.sent) ∧
    (let a := FetchCanceller.setup FetchCanceller.new w
     (FetchCanceller.dropGuard a.1 a.2.1).2.sent = w.sent ++ [a.2.2]) ∧
    (f.cancel_chan = some ch →
      (FetchCanceller.setup f w).2.1.sent = w.sent ++ [ch] ∧
        (FetchCanceller.setup f w).1.cancel_chan = some (FetchCanceller.setup f w).2.2) := by
  refine ⟨⟨rfl, rfl, by
    simp only [FetchCanceller.setup, FetchCanceller.cancel, FetchCanceller.new]
    omega⟩, rfl, rfl, fun h => ?_⟩
  cases f with
  | mk c =>
    cases c with
    | none => cases h
    | some c0 =>
      cases h
      exact ⟨rfl, rfl⟩

/-- Witness for C2 at the concrete world ⟨0, []⟩ and the armed guard
⟨some 7⟩. -/
theorem fetch_canceller_spec_witness :
    (let a := FetchCanceller.setup FetchCanceller.new ⟨0, []⟩
     let b := FetchCanceller.setup a.1 a.2.1
     b.2.1.sent = ([] : List Nat) ++ [a.2.2] ∧
       b.1.cancel_chan = some b.2.2 ∧ a.2.2 ≠ b.2.2) ∧
    (let a := FetchCanceller.setup FetchCanceller.new ⟨0, []⟩
     (FetchCanceller.dropGuard (FetchCanceller.ignore a.1) a.2.1).2.sent = ([] : List Nat)) ∧
    (let a := FetchCanceller.setup FetchCanceller.new ⟨0, []⟩
     (FetchCanceller.dropGuard a.1 a.2.1).2.sent = ([] : List Nat) ++ [a.2.2]) ∧
    ((⟨some 7⟩ : FetchCanceller).cancel_chan = some 7 →
      (FetchCanceller.setup ⟨some 7⟩ ⟨0, []⟩).2.1.sent = ([] : List Nat) ++ [7] ∧
        (FetchCanceller.setup ⟨some 7⟩ ⟨0, []⟩).1.cancel_chan
          = some (FetchCanceller.setup ⟨some 7⟩ ⟨0, []⟩).2.2) :=
  fetch_canceller_spec ⟨0, []⟩ ⟨some 7⟩ 7

/-- C5: closing the only remaining tab empties the stack and emits
quit; closing one of two tabs leaves the remaining tab, makes it
active, and emits select-browser for it (and no other event). -/
theorem close_browser_spec (env : Env) (s : BrowserState) (bid : Option Nat) (a b : Nat) :
    handleServoEvent env { s with browsers := [a] } bid .closeBrowser
      = ({ s with browsers := [], event_queue := s.event_queue ++ [.quit] }, []) ∧
    handleServoEvent env { s with browsers := [a, b] } bid .closeBrowser
      = ({ s with
            browsers := [a],
            browser_id := some a,
            event_queue := s.event_queue ++ [.selectBrowser a] }, []) := by
  constructor <;> simp [handleServoEvent, BrowserState.push, List.dropLast]

/-- C9: a key-event notification in the pressed state is dropped by the
remap handler: the coordinator state (event queue included) is
unchanged and no output is produced; remapped actions can only arise
from released key events. -/
theorem keypress_remap_noop (env : Env) (s : BrowserState) (bid : Option Nat)
    (ch : Option Char) (key : Key) (mods : KeyModifiers) :
    handleServoEvent env s bid (.keyEvent ch key .pressed mods) = (s, []) := by
  simp [handleServoEvent, handle_key_from_servo]

/-- C6 (amended): the unload, navigation and open-browser permission
requests each produce exactly one reply, false, with no state change;
the bluetooth-device selection request is ignored and produces no
reply. -/
theorem permission_replies (env : Env) (s : BrowserState) (bid : Option Nat)
    (url : String) (devices : List String) :
    handleServoEvent env s bid .allowUnload = (s, [.replyBool false]) ∧
    handleServoEvent env s bid (.allowNavigation url) = (s, [.replyBool false]) ∧
    handleServoEvent env s bid .allowOpeningBrowser = (s, [.replyBool false]) ∧
    handleServoEvent env s bid (.getSelectedBluetoothDevice devices) = (s, []) := by
  exact ⟨rfl, rfl, rfl, rfl⟩

/-- C6 counterexample: a bluetooth-device selection request is answered
with zero replies, not exactly one. -/
theorem bluetooth_no_reply :
    (handleServoEvent env0 BrowserState.new none
        (.getSelectedBluetoothDevice ["device"])).2 = [] ∧
    replyCount (handleServoEvent env0 BrowserState.new none
        (.getSelectedBluetoothDevice ["device"])).2 ≠ 1 := by
  exact ⟨rfl, by decide⟩

/-- C8 (amended): with no modifiers and no character, the up and down
arrow keys scroll by a three-line step (3 * LINE_HEIGHT) vertically,
while the left and right arrow keys scroll by a single-line step
(LINE_HEIGHT, not three lines) horizontally. -/
theorem arrow_key_scroll (env : Env) (s : BrowserState) :
    handle_key_from_servo env s none .up .released KeyModifiers.NONE
      = s.push (.scroll (.delta (0, 3 * LINE_HEIGHT)) (0, 0) .move) ∧
    handle_key_from_servo env s none .down .released KeyModifiers.NONE
      = s.push (.scroll (.delta (0, -(3 * LINE_HEIGHT))) (0, 0) .move) ∧
    handle_key_from_servo env s none .left .released KeyModifiers.NONE
      = s.push (.scroll (.delta (LINE_HEIGHT, 0)) (0, 0) .move) ∧
    handle_key_from_servo env s none .right .released KeyModifiers.NONE
      = s.push (.scroll (.delta (-LINE_HEIGHT, 0)) (0, 0) .move) := by
  exact ⟨rfl, rfl, rfl, rfl⟩

/-- C8 counterexample: the left arrow key (no modifiers, no character)
emits a scroll delta of magnitude LINE_HEIGHT, not the claimed three
lines. -/
theorem arrow_key_counterexample :
    handle_key_from_servo env0 BrowserState.new none .left .released KeyModifiers.NONE
      = BrowserState.new.push (.scroll (.delta (LINE_HEIGHT, 0)) (0, 0) .move) ∧
    (LINE_HEIGHT, (0 : ℚ)) ≠ (3 * LINE_HEIGHT, (0 : ℚ)) ∧
    (LINE_HEIGHT, (0 : ℚ)) ≠ (-(3 * LINE_HEIGHT), (0 : ℚ)) := by
  refine ⟨rfl, by norm_num [LINE_HEIGHT, Prod.ext_iff], by norm_num [LINE_HEIGHT, Prod.ext_iff]⟩

/-- C4 (amended): for every nonzero wheel delta, scroll-axis snapping
zeroes exactly one component, keeping the dominant one unchanged: when
|dy| >= |dx| the result is (0, dy), otherwise (dx, 0). -/
theorem snap_scroll_spec (dx dy : ℚ) (h : ¬(dx = 0 ∧ dy = 0)) :
    ExactlyOneZero (snap_scroll dx dy) ∧
    (|dy| ≥ |dx| → snap_scroll dx dy = (0, dy)) ∧
    (|dy| < |dx| → snap_scroll dx dy = (dx, 0)) := by
  by_cases hc : |dy| ≥ |dx|
  · have hdy : dy ≠ 0 := by
      intro h0
      refine h ⟨abs_eq_zero.mp (le_antisymm ?_ (abs_nonneg dx)), h0⟩
      simpa [h0] using hc
    exact ⟨Or.inl ⟨by simp [snap_scroll, hc], by simpa [snap_scroll, hc] using hdy⟩,
      fun _ => by simp [snap_scroll, hc],
      fun hlt => absurd hlt (not_lt.mpr hc)⟩
  · have hdx : dx ≠ 0 := by
      intro h0
      exact hc (by simpa [h0] using abs_nonneg dy)
    exact ⟨Or.inr ⟨by simpa [snap_scroll, hc] using hdx, by simp [snap_scroll, hc]⟩,
      fun hge => absurd hge hc,
      fun _ => by simp [snap_scroll, hc]⟩

/-- Witness for C4 at the delta (3, 4): |4| >= |3|, so dx is zeroed and
dy survives. -/
theorem snap_scroll_spec_witness :
    ExactlyOneZero (snap_scroll 3 4) ∧ snap_scroll 3 4 = (0, 4) :=
  ⟨(snap_scroll_spec 3 4 (by norm_num)).1,
   (snap_scroll_spec 3 4 (by norm_num)).2.1 (by norm_num)⟩

/-- C4 counterexample: at the zero wheel delta, after snapping both
components are zero, so it is false that exactly one of them is zero;
the MouseWheel handler emits that all-zero delta. -/
theorem snap_scroll_counterexample :
    snap_scroll 0 0 = (0, 0) ∧
    ¬ ExactlyOneZero (snap_scroll 0 0) ∧
    (handle_mouse_wheel 1 window0 (.lineDelta 0 0) .move).event_queue
      = [.scroll (.delta (0, 0)) (0, 0) .move] := by
  refine ⟨by norm_num [snap_scroll], by norm_num [snap_scroll, ExactlyOneZero], ?_⟩
  show window0.event_queue ++ [_] = _
  norm_num [handle_mouse_wheel, resolve_wheel_delta, snap_scroll, window0]

/-- C3: for a button-down at p followed by a button-up at q of the same
button, the translator emits mouse-down and mouse-up, plus exactly one
click exactly when the squared anchor-to-release distance is under the
squared threshold (10 device-independent pixels times the hidpi
factor); over nonnegative thresholds this is the Euclidean-distance
comparison of the source.  A button-up for a different button, or with
no recorded button, emits only mouse-up. -/
theorem click_disambiguation (hidpi : ℚ) (w : WindowModel) (b b2 : MouseButtonW)
    (p q : ℤ × ℤ) (hb : b2 ≠ b) :
    (handle_mouse hidpi (handle_mouse hidpi w b .pressed p) b .released q).event_queue
      = w.event_queue
        ++ [.mouseWindowEventClass (.mouseDown .left (qpoint p))]
        ++ (if (((p.1 - q.1) * (p.1 - q.1) + (p.2 - q.2) * (p.2 - q.2) : ℤ) : ℚ)
              < (10 * hidpi) ^ 2
            then [.mouseWindowEventClass (.mouseUp .left (qpoint q)),
                  .mouseWindowEventClass (.click .left (qpoint q))]
            else [.mouseWindowEventClass (.mouseUp .left (qpoint q))]) ∧
    (handle_mouse hidpi (handle_mouse hidpi w b .pressed p) b2 .released q).event_queue
      = w.event_queue
        ++ [.mouseWindowEventClass (.mouseDown .left (qpoint p)),
            .mouseWindowEventClass (.mouseUp .left (qpoint q))] ∧
    (w.mouse_down_button = none →
      (handle_mouse hidpi w b .released q).event_queue
        = w.event_queue ++ [.mouseWindowEventClass (.mouseUp .left (qpoint q))]) := by
  refine ⟨?_, ?_, fun hn => ?_⟩
  · simp only [handle_mouse]
    rcases lt_or_le ((((p.1 - q.1) * (p.1 - q.1) + (p.2 - q.2) * (p.2 - q.2) : ℤ) : ℚ))
        ((10 * hidpi) ^ 2) with hd | hd
    · push_cast at hd
      simp [hd]
    · push_cast at hd
      simp [not_lt.mpr hd]
  · simp [handle_mouse, hb]
  · simp [handle_mouse, hn]

/-- Witness for C3: press left at (0,0), release left at (3,4) with
hidpi 1; the squared distance 25 is under the squared threshold 100, so
mouse-down, mouse-up and click are emitted.  Releasing right instead
emits only mouse-up, as does releasing with no recorded button. -/
theorem click_disambiguation_witness :
    (handle_mouse 1 (handle_mouse 1 window0 .left .pressed (0, 0)) .left
        .released (3, 4)).event_queue
      = window0.event_queue
        ++ [.mouseWindowEventClass (.mouseDown .left (qpoint (0, 0)))]
        ++ (if ((((0 : ℤ) - 3) * ((0 : ℤ) - 3) + ((0 : ℤ) - 4) * ((0 : ℤ) - 4) : ℤ) : ℚ)
              < (10 * 1) ^ 2
            then [.mouseWindowEventClass (.mouseUp .left (qpoint (3, 4))),
                  .mouseWindowEventClass (.click .left (qpoint (3, 4)))]
            else [.mouseWindowEventClass (.mouseUp .left (qpoint (3, 4)))]) ∧
    (handle_mouse 1 (handle_mouse 1 window0 .left .pressed (0, 0)) .right
        .released (3, 4)).event_queue
      = window0.event_queue
        ++ [.mouseWindowEventClass (.mouseDown .left (qpoint (0, 0))),
            .mouseWindowEventClass (.mouseUp .left (qpoint (3, 4)))] ∧
    (handle_mouse 1 window0 .left .released (3, 4)).event_queue
      = window0.event_queue ++ [.mouseWindowEventClass (.mouseUp .left (qpoint (3, 4)))] :=
  ⟨(click_disambiguation 1 window0 .left .right (0, 0) (3, 4) (by decide)).1,
   (click_disambiguation 1 window0 .left .right (0, 0) (3, 4) (by decide)).2.1,
   (click_disambiguation 1 window0 .left .right (0, 0) (3, 4) (by decide)).2.2 rfl⟩

/-- Every event handle_mouse appends to the queue is a
MouseWindowEventClass carrying MouseButton::Left, whatever the physical
button and action. -/
theorem handle_mouse_emits_left (hidpi : ℚ) (w : WindowModel) (button : MouseButtonW)
    (action : ElementState) (coords : ℤ × ℤ) :
    ∃ tail, (handle_mouse hidpi w button action coords).event_queue
        = w.event_queue ++ tail ∧
      ∀ e ∈ tail, ∃ me, e = WindowEvent.mouseWindowEventClass me ∧
        me.button = ServoMouseButton.left := by
  cases action with
  | pressed =>
    refine ⟨[.mouseWindowEventClass (.mouseDown .left (qpoint coords))], rfl, ?_⟩
    intro e he
    rw [List.mem_singleton] at he
    exact ⟨_, he, rfl⟩
  | released =>
    rcases hmd : w.mouse_down_button with _ | but
    · refine ⟨[.mouseWindowEventClass (.mouseUp .left (qpoint coords))], ?_, ?_⟩
      · simp [handle_mouse, hmd]
      · intro e he
        rw [List.mem_singleton] at he
        exact ⟨_, he, rfl⟩
    · by_cases hb : button = but
      · simp only [handle_mouse, hmd, if_pos hb]
        split
        · refine ⟨[.mouseWindowEventClass (.mouseUp .left (qpoint coords)),
                   .mouseWindowEventClass (.click .left (qpoint coords))], rfl, ?_⟩
          intro e he
          rcases List.mem_cons.mp he with h | h
          · exact ⟨_, h, rfl⟩
          · rw [List.mem_singleton] at h
            exact ⟨_, h, rfl⟩
        · refine ⟨[.mouseWindowEventClass (.mouseUp .left (qpoint coords))], rfl, ?_⟩
          intro e he
          rw [List.mem_singleton] at he
          exact ⟨_, he, rfl⟩
      · refine ⟨[.mouseWindowEventClass (.mouseUp .left (qpoint coords))], ?_, ?_⟩
        · simp [handle_mouse, hmd, hb]
        · intro e he
          rw [List.mem_singleton] at he
          exact ⟨_, he, rfl⟩

/-- C10: physical middle and other buttons produce no event at all, and
every mouse event the translator emits (down, up, click) carries the
Left button identifier, whether the physical button was left or
right. -/
theorem mouse_button_normalization (hidpi : ℚ) (w : WindowModel) (st : ElementState)
    (b : MouseButtonW) (n : Nat) (e : WindowEvent) :
    handle_mouse_input hidpi w st .middle = w ∧
    handle_mouse_input hidpi w st (.other n) = w ∧
    (e ∈ (handle_mouse_input hidpi w st b).event_queue →
      e ∈ w.event_queue ∨
        ∃ me, e = WindowEvent.mouseWindowEventClass me ∧
          me.button = ServoMouseButton.left) := by
  refine ⟨by simp [handle_mouse_input], by simp [handle_mouse_input], fun he => ?_⟩
  unfold handle_mouse_input at he
  by_cases hlr : b = MouseButtonW.left ∨ b = MouseButtonW.right
  · rw [if_pos hlr] at he
    obtain ⟨tail, hq, htail⟩ := handle_mouse_emits_left hidpi w b st w.mouse_pos
    rw [hq] at he
    rcases List.mem_append.mp he with h | h
    · exact Or.inl h
    · exact Or.inr (htail e h)
  · rw [if_neg hlr] at he
    exact Or.inl he

/-- Witness for C10: pressing the left button at the origin yields a
queue whose one event is a mouse-down carrying the Left identifier. -/
theorem mouse_button_normalization_witness :
    handle_mouse_input 1 window0 .pressed .middle = window0 ∧
    handle_mouse_input 1 window0 .pressed (.other 4) = window0 ∧
    (WindowEvent.mouseWindowEventClass (.mouseDown .left (qpoint (0, 0)))
        ∈ window0.event_queue ∨
      ∃ me, WindowEvent.mouseWindowEventClass (.mouseDown .left (qpoint (0, 0)))
          = WindowEvent.mouseWindowEventClass me ∧
        me.button = ServoMouseButton.left) :=
  ⟨(mouse_button_normalization 1 window0 .pressed .left 4
      (WindowEvent.mouseWindowEventClass (.mouseDown .left (qpoint (0, 0))))).1,
   (mouse_button_normalization 1 window0 .pressed .left 4
      (WindowEvent.mouseWindowEventClass (.mouseDown .left (qpoint (0, 0))))).2.1,
   (mouse_button_normalization 1 window0 .pressed .left 4
      (WindowEvent.mouseWindowEventClass (.mouseDown .left (qpoint (0, 0))))).2.2
     (by simp [handle_mouse_input, handle_mouse, window0, qpoint])⟩

/-- C7: a printable key-down defers emission; the following
character-produced event emits exactly one key-press event with both
the script key resolved from the character and the character itself
populated, clearing the deferred slot.  If instead another key event
arrives first, the deferred key is dropped silently: the queue gains
only what the second key event itself produces (nothing when it defers
again, else one key event for the second key with no character), and at
most one deferred key is ever outstanding. -/
theorem key_composition (ku : Keyutils) (w : WindowModel) (c1 c2 : Nat)
    (m1 m2 : ModifiersState) (ch : Char) (k1 k2 kc : Key) (st2 : ElementState)
    (h1 : ku.winit_key_to_script_key c1 = some k1)
    (hp1 : ku.is_printable c1 = true)
    (hc : ku.char_to_script_key ch = some kc)
    (h2 : ku.winit_key_to_script_key c2 = some k2) :
    (handle_received_character ku (handle_keyboard_input ku w .pressed c1 m1) ch).event_queue
      = w.event_queue
        ++ [.keyEvent (some ch) kc .pressed ⟨m1.ctrl, m1.shift, m1.alt, m1.logo⟩] ∧
    (handle_received_character ku (handle_keyboard_input ku w .pressed c1 m1) ch).last_pressed_key
      = none ∧
    (handle_keyboard_input ku (handle_keyboard_input ku w .pressed c1 m1) st2 c2 m2).event_queue
      = w.event_queue
        ++ (if st2 = ElementState.pressed ∧ ku.is_printable c2 = true then []
            else [.keyEvent none k2 (keyStateOfElement st2)
                    ⟨m2.ctrl, m2.shift, m2.alt, m2.logo⟩]) ∧
    (handle_keyboard_input ku (handle_keyboard_input ku w .pressed c1 m1) st2 c2 m2).last_pressed_key
      = (if st2 = ElementState.pressed ∧ ku.is_printable c2 = true then some k2
         else none) := by
  have hw1 : handle_keyboard_input ku w .pressed c1 m1
      = { toggle_keyboard_modifiers w m1 with last_pressed_key := some k1 } := by
    simp [handle_keyboard_input, h1, hp1]
  rw [hw1]
  by_cases hpc : st2 = ElementState.pressed ∧ ku.is_printable c2 = true
  · refine ⟨?_, ?_, ?_, ?_⟩ <;>
      simp [handle_received_character, handle_keyboard_input, toggle_keyboard_modifiers,
            hc, h2, hpc]
  · refine ⟨?_, ?_, ?_, ?_⟩ <;>
      simp [handle_received_character, handle_keyboard_input, toggle_keyboard_modifiers,
            hc, h2, hpc]

/-- Witness for C7 with the concrete key table ku0: keycode 65 pressed
(printable) then character 'a' produced composes one key-press with key
97 and character 'a'; keycode 65 pressed then keycode 66 pressed (not
printable) drops the deferred key and emits only the key event for 66. -/
theorem key_composition_witness :
    (handle_received_character ku0
        (handle_keyboard_input ku0 window0 .pressed 65 ⟨false, false, false, false⟩)
        'a').event_queue
      = window0.event_queue
        ++ [.keyEvent (some 'a') (.other 97) .pressed ⟨false, false, false, false⟩] ∧
    (handle_received_character ku0
        (handle_keyboard_input ku0 window0 .pressed 65 ⟨false, false, false, false⟩)
        'a').last_pressed_key
      = none ∧
    (handle_keyboard_input ku0
        (handle_keyboard_input ku0 window0 .pressed 65 ⟨false, false, false, false⟩)
        .pressed 66 ⟨false, false, false, false⟩).event_queue
      = window0.event_queue
        ++ (if ElementState.pressed = ElementState.pressed ∧ ku0.is_printable 66 = true
            then []
            else [.keyEvent none (.other 66) (keyStateOfElement .pressed)
                    ⟨false, false, false, false⟩]) ∧
    (handle_keyboard_input ku0
        (handle_keyboard_input ku0 window0 .pressed 65 ⟨false, false, false, false⟩)
        .pressed 66 ⟨false, false, false, false⟩).last_pressed_key
      = (if ElementState.pressed = ElementState.pressed ∧ ku0.is_printable 66 = true
         then some (.other 66)
         else none) :=
  key_composition ku0 window0 65 66 ⟨false, false, false, false⟩ ⟨false, false, false, false⟩
    'a' (.other 65) (.other 66) (.other 97) .pressed rfl rfl rfl rfl

/-- SessionInv only depends on the browser_id and browsers fields. -/
theorem sessionInv_congr (s t : BrowserState) (h1 : t.browser_id = s.browser_id)
    (h2 : t.browsers = s.browsers) (h : SessionInv s) : SessionInv t := by
  unfold SessionInv at *
  rw [h1, h2]
  exact h

/-- The remap handler never touches the session fields. -/
theorem handle_key_from_servo_fields (env : Env) (s : BrowserState) (ch : Option Char)
    (key : Key) (st : KeyState) (mods : KeyModifiers) :
    (handle_key_from_servo env s ch key st mods).browser_id = s.browser_id ∧
    (handle_key_from_servo env s ch key st mods).browsers = s.browsers := by
  unfold handle_key_from_servo BrowserState.push
  split_ifs <;> first
    | exact ⟨rfl, rfl⟩
    | (cases key <;> exact ⟨rfl, rfl⟩)

/-- Any notification other than browser-created preserves SessionInv
and does not change whether an active browser id exists. -/
theorem stepBrowser_not_created (env : Env) (pm : Option Nat × EmbedderMsg)
    (s : BrowserState) (hcf : isBrowserCreated pm.2 = false) (hInv : SessionInv s) :
    SessionInv (stepBrowser env s pm) ∧
      ((stepBrowser env s pm).browser_id = none ↔ s.browser_id = none) := by
  obtain ⟨bid, m⟩ := pm
  cases m with
  | browserCreated id => simp [isBrowserCreated] at hcf
  | keyEvent ch key st mods =>
    have hf : (stepBrowser env s (bid, EmbedderMsg.keyEvent ch key st mods)).browser_id
          = s.browser_id ∧
        (stepBrowser env s (bid, EmbedderMsg.keyEvent ch key st mods)).browsers
          = s.browsers :=
      handle_key_from_servo_fields env s ch key st mods
    exact ⟨sessionInv_congr s _ hf.1 hf.2 hInv, by rw [hf.1]⟩
  | alert msg =>
    have hf : (stepBrowser env s (bid, EmbedderMsg.alert msg)).browser_id = s.browser_id ∧
        (stepBrowser env s (bid, EmbedderMsg.alert msg)).browsers = s.browsers := by
      by_cases hs : env.sendFails = true <;>
        simp [stepBrowser, handleServoEvent, hs, BrowserState.push]
    exact ⟨sessionInv_congr s _ hf.1 hf.2 hInv, by rw [hf.1]⟩
  | selectFiles patterns multiple =>
    have hf : (stepBrowser env s (bid, EmbedderMsg.selectFiles patterns multiple)).browser_id
          = s.browser_id ∧
        (stepBrowser env s (bid, EmbedderMsg.selectFiles patterns multiple)).browsers
          = s.browsers := by
      by_cases hs : env.sendFails = true <;>
        simp [stepBrowser, handleServoEvent, hs, BrowserState.push]
    exact ⟨sessionInv_congr s _ hf.1 hf.2 hInv, by rw [hf.1]⟩
  | closeBrowser =>
    rcases hInv with ⟨hid, hbr⟩ | ⟨a, hid, hbr | hbr⟩
    · have hstep : stepBrowser env s (bid, EmbedderMsg.closeBrowser)
          = { s with
                browsers := [],
                event_queue := s.event_queue ++ [.quit] } := by
        simp [stepBrowser, handleServoEvent, BrowserState.push, hbr]
      rw [hstep]
      exact ⟨Or.inl ⟨hid, rfl⟩, Iff.rfl⟩
    · have hstep : stepBrowser env s (bid, EmbedderMsg.closeBrowser)
          = { s with
                browsers := [],
                event_queue := s.event_queue ++ [.quit] } := by
        simp [stepBrowser, handleServoEvent, BrowserState.push, hbr]
      rw [hstep]
      exact ⟨Or.inr ⟨a, hid, Or.inl rfl⟩, Iff.rfl⟩
    · have hstep : stepBrowser env s (bid, EmbedderMsg.closeBrowser)
          = { s with
                browsers := [],
                event_queue := s.event_queue ++ [.quit] } := by
        simp [stepBrowser, handleServoEvent, BrowserState.push, hbr, List.dropLast]
      rw [hstep]
      exact ⟨Or.inr ⟨a, hid, Or.inl rfl⟩, Iff.rfl⟩
  | status st => exact ⟨sessionInv_congr s _ rfl rfl hInv, Iff.rfl⟩
  | changePageTitle t => exact ⟨sessionInv_congr s _ rfl rfl hInv, Iff.rfl⟩
  | moveTo p => exact ⟨sessionInv_congr s _ rfl rfl hInv, Iff.rfl⟩
  | resizeTo sz => exact ⟨sessionInv_congr s _ rfl rfl hInv, Iff.rfl⟩
  | allowUnload => exact ⟨sessionInv_congr s _ rfl rfl hInv, Iff.rfl⟩
  | allowNavigation url => exact ⟨sessionInv_congr s _ rfl rfl hInv, Iff.rfl⟩
  | allowOpeningBrowser => exact ⟨sessionInv_congr s _ rfl rfl hInv, Iff.rfl⟩
  | setCursor c => exact ⟨sessionInv_congr s _ rfl rfl hInv, Iff.rfl⟩
  | newFavicon url => exact ⟨sessionInv_congr s _ rfl rfl hInv, Iff.rfl⟩
  | headParsed => exact ⟨sessionInv_congr s _ rfl rfl hInv, Iff.rfl⟩
  | historyChanged urls current => exact ⟨sessionInv_congr s _ rfl rfl hInv, Iff.rfl⟩
  | setFullscreenState st => exact ⟨sessionInv_congr s _ rfl rfl hInv, Iff.rfl⟩
  | loadStart => exact ⟨sessionInv_congr s _ rfl rfl hInv, Iff.rfl⟩
  | loadComplete => exact ⟨sessionInv_congr s _ rfl rfl hInv, Iff.rfl⟩
  | shutdown => exact ⟨sessionInv_congr s _ rfl rfl hInv, Iff.rfl⟩
  | panicMsg reason => exact ⟨sessionInv_congr s _ rfl rfl hInv, Iff.rfl⟩
  | getSelectedBluetoothDevice devices => exact ⟨sessionInv_congr s _ rfl rfl hInv, Iff.rfl⟩
  | showIME kind => exact ⟨sessionInv_congr s _ rfl rfl hInv, Iff.rfl⟩
  | hideIME => exact ⟨sessionInv_congr s _ rfl rfl hInv, Iff.rfl⟩

/-- A browser-created notification handled with no active id makes the
new id active and preserves SessionInv. -/
theorem stepBrowser_created (env : Env) (bid : Option Nat) (id : Nat) (s : BrowserState)
    (hid : s.browser_id = none) (hInv : SessionInv s) :
    SessionInv (stepBrowser env s (bid, .browserCreated id)) ∧
      (stepBrowser env s (bid, .browserCreated id)).browser_id = some id := by
  have hbr : s.browsers = [] := by
    rcases hInv with ⟨_, h⟩ | ⟨a, ha, _⟩
    · exact h
    · rw [hid] at ha
      cases ha
  have hstep : stepBrowser env s (bid, .browserCreated id)
      = { s with
            browsers := [id],
            browser_id := some id,
            event_queue := s.event_queue ++ [.selectBrowser id] } := by
    simp [stepBrowser, handleServoEvent, BrowserState.push, hid, hbr]
  rw [hstep]
  exact ⟨Or.inr ⟨id, rfl, Or.inr rfl⟩, rfl⟩

/-- SessionInv is preserved by any batch containing at most one
browser-created notification (none at all once an active id exists). -/
theorem runServoEvents_inv (env : Env) :
    ∀ (msgs : List (Option Nat × EmbedderMsg)) (s : BrowserState),
      SessionInv s →
      createdCount msgs + (if s.browser_id = none then 0 else 1) ≤ 1 →
      SessionInv (runServoEvents env s msgs) := by
  intro msgs
  induction msgs with
  | nil =>
    intro s hInv _
    exact hInv
  | cons pm rest ih =>
    intro s hInv hbud
    show SessionInv (runServoEvents env (stepBrowser env s pm) rest)
    by_cases hc : isBrowserCreated pm.2 = true
    · obtain ⟨bid, m⟩ := pm
      have hex : ∃ id, m = EmbedderMsg.browserCreated id := by
        cases m <;> first
          | exact ⟨_, rfl⟩
          | simp [isBrowserCreated] at hc
      obtain ⟨id, rfl⟩ := hex
      have hcount : createdCount ((bid, EmbedderMsg.browserCreated id) :: rest)
          = createdCount rest + 1 := by
        simp [createdCount, isBrowserCreated]
      rw [hcount] at hbud
      have hid : s.browser_id = none := by
        by_contra hne
        rw [if_neg hne] at hbud
        omega
      rw [if_pos hid] at hbud
      have hrest0 : createdCount rest = 0 := by omega
      obtain ⟨hInv2, hid2⟩ := stepBrowser_created env bid id s hid hInv
      apply ih _ hInv2
      rw [hid2]
      simp [hrest0]
    · have hcf : isBrowserCreated pm.2 = false := by
        simpa using hc
      obtain ⟨hInv2, hiff⟩ := stepBrowser_not_created env pm s hcf hInv
      apply ih _ hInv2
      have hcount : createdCount (pm :: rest) = createdCount rest := by
        simp [createdCount, hcf]
      rw [hcount] at hbud
      by_cases hn : s.browser_id = none
      · rw [if_pos (hiff.mpr hn)]
        rw [if_pos hn] at hbud
        exact hbud
      · rw [if_neg (fun h => hn (hiff.mp h))]
        rw [if_neg hn] at hbud
        exact hbud

/-- C1 (amended): handling browser-created(id) pushes id onto the
stack, makes it active only if no active id existed yet, and emits
select-browser(id).  The active-equals-top invariant holds for every
notification sequence containing at most one browser-created: whenever
the stack is non-empty, the active id equals the top of the stack.  (A
second browser-created while an id is active leaves the stale active id
below the new top, and emptying the stack leaves a stale active id, so
the unrestricted invariant fails.) -/
theorem browser_created_session (env : Env) (s : BrowserState) (bid : Option Nat)
    (id : Nat) (msgs : List (Option Nat × EmbedderMsg))
    (hcount : createdCount msgs ≤ 1) :
    (handleServoEvent env s bid (.browserCreated id)).1.browsers = s.browsers ++ [id] ∧
    (handleServoEvent env s bid (.browserCreated id)).1.browser_id
      = (if s.browser_id = none then some id else s.browser_id) ∧
    (handleServoEvent env s bid (.browserCreated id)).1.event_queue
      = s.event_queue ++ [.selectBrowser id] ∧
    ((runServoEvents env BrowserState.new msgs).browsers ≠ [] →
      (runServoEvents env BrowserState.new msgs).browser_id
        = (runServoEvents env BrowserState.new msgs).browsers.getLast?) := by
  refine ⟨?_, ?_, ?_, fun hne => ?_⟩
  · simp only [handleServoEvent, BrowserState.push]
    split <;> rfl
  · simp only [handleServoEvent, BrowserState.push]
    split <;> simp_all
  · simp only [handleServoEvent, BrowserState.push]
    split <;> rfl
  · have hInv := runServoEvents_inv env msgs BrowserState.new (Or.inl ⟨rfl, rfl⟩)
      (by simpa [BrowserState.new] using hcount)
    rcases hInv with ⟨_, hbr⟩ | ⟨a, hid, hbr | hbr⟩
    · exact absurd hbr hne
    · exact absurd hbr hne
    · rw [hid, hbr]
      rfl

/-- Witness for C1 at the single notification browser-created(5) from
the fresh coordinator: the stack becomes [5], 5 becomes active,
select-browser(5) is emitted, and active equals top. -/
theorem browser_created_session_witness :
    (handleServoEvent env0 BrowserState.new none (.browserCreated 5)).1.browsers
      = BrowserState.new.browsers ++ [5] ∧
    (handleServoEvent env0 BrowserState.new none (.browserCreated 5)).1.browser_id
      = (if BrowserState.new.browser_id = none then some 5
         else BrowserState.new.browser_id) ∧
    (handleServoEvent env0 BrowserState.new none (.browserCreated 5)).1.event_queue
      = BrowserState.new.event_queue ++ [.selectBrowser 5] ∧
    (runServoEvents env0 BrowserState.new [(none, .browserCreated 5)]).browser_id
      = (runServoEvents env0 BrowserState.new [(none, .browserCreated 5)]).browsers.getLast? :=
  ⟨(browser_created_session env0 BrowserState.new none 5 [(none, .browserCreated 5)]
      (by decide)).1,
   (browser_created_session env0 BrowserState.new none 5 [(none, .browserCreated 5)]
      (by decide)).2.1,
   (browser_created_session env0 BrowserState.new none 5 [(none, .browserCreated 5)]
      (by decide)).2.2.1,
   (browser_created_session env0 BrowserState.new none 5 [(none, .browserCreated 5)]
      (by decide)).2.2.2 (by decide)⟩

/-- C1 counterexample: after two browser-created notifications the
active id is the first id while the top of the stack is the second, so
the unrestricted active-equals-top invariant is false. -/
theorem browser_session_counterexample :
    (runServoEvents env0 BrowserState.new
        [(none, .browserCreated 1), (none, .browserCreated 2)]).browser_id = some 1 ∧
    (runServoEvents env0 BrowserState.new
        [(none, .browserCreated 1), (none, .browserCreated 2)]).browsers.getLast?
      = some 2 ∧
    (runServoEvents env0 BrowserState.new
        [(none, .browserCreated 1), (none, .browserCreated 2)]).browser_id
      ≠ (runServoEvents env0 BrowserState.new
          [(none, .browserCreated 1), (none, .browserCreated 2)]).browsers.getLast? := by
  exact ⟨rfl, rfl, by decide⟩

end Servo
